import Mathlib

/-!
Verification of `optimal_land_area.py` (therealspring/optimization_trials).

This file gives a shallow embedding of the program's raster-algebra
primitives, the neighborhood-kernel construction, the per-region
scheduling loop of `main`, the feature-extraction routine, the
remote-copy routine and the worker-pool error handler, and proves or
refutes the specification claims about them.

Modelling conventions:
* numpy floating-point values are idealized as rationals (`ℚ`); the
  tolerances of `numpy.isclose` (`rtol = 1e-5`, `atol = 1e-8`) are
  embedded exactly.
* numpy's cast of a float into a `uint8` array truncates toward zero and
  wraps modulo 256 (C cast semantics, the behavior of the numpy version
  this source targets); `npUint8` embeds that.
* the kernel array built by `make_neighborhood_hat_kernel` is a
  `numpy.uint8` array, hence integer-valued: it is embedded as a
  `ℤ`-valued function of the cell coordinates.
* filesystem and subprocess effects are embedded as explicit event
  traces or returned values; a raised Python exception is an
  `Except.error`.
-/

/-- `numpy.isclose` relative tolerance (default `rtol = 1e-5`). -/
def np_rtol : ℚ := 1 / 100000

/-- `numpy.isclose` absolute tolerance (default `atol = 1e-8`). -/
def np_atol : ℚ := 1 / 100000000

/-- `numpy.isclose(a, b)` with default tolerances:
`|a - b| <= atol + rtol * |b|`. -/
def isclose (a b : ℚ) : Bool := decide (|a - b| ≤ np_atol + np_rtol * |b|)

/-- Truncation of a rational toward zero, the rounding C (and numpy's
float-to-integer cast) performs. -/
def ratTruncToZero (q : ℚ) : ℤ :=
  if 0 ≤ q then ((q.num.natAbs / q.den : ℕ) : ℤ)
  else -((q.num.natAbs / q.den : ℕ) : ℤ)

/-- numpy cast of a float value into a `uint8` array cell: truncate
toward zero, then wrap modulo 256 (two's-complement wraparound). -/
def npUint8 (q : ℚ) : ℚ := ((ratTruncToZero q % 256 : ℤ) : ℚ)

/-- Embedding of `threshold_op(base_array, threshold_val, base_nodata,
target_nodata)` at one pixel.  Source (`optimal_land_area.py:143-150`):
the result is a `uint8` array prefilled with `target_nodata`; pixels
whose value is `numpy.isclose` to `base_nodata` or to `0` keep that
fill; every other pixel gets `base_array >= threshold_val` as 0/1. -/
def threshold_op (base threshold_val base_nodata target_nodata : ℚ) : ℚ :=
  if isclose base base_nodata || isclose base 0 then npUint8 target_nodata
  else if threshold_val ≤ base then 1 else 0

/-- Embedding of `proportion_op(base_array, total_sum, base_nodata,
target_nodata)` at one pixel.  Source (`optimal_land_area.py:153-160`):
pixels `numpy.isclose` to `base_nodata` become `target_nodata`, every
other pixel becomes `base / total_sum`.  There is no test of
`total_sum` anywhere in the body. -/
def proportion_op (base total_sum base_nodata target_nodata : ℚ) : ℚ :=
  if isclose base base_nodata then target_nodata else base / total_sum

/-- The mask of pixels on which `proportion_op` executes its division
(`result[valid_mask] = base_array[valid_mask] / total_sum`): it depends
only on `base` and `base_nodata`, not on `total_sum` — the code has no
guard for a zero divisor. -/
def proportion_division_reached (base total_sum base_nodata : ℚ) : Bool :=
  !(isclose base base_nodata)

/-- Validity flag computed by `sum_rasters_op` at one pixel
(`total_valid_mask`): true iff at least one input is not
`numpy.isclose` to the nodata sentinel. -/
def sum_rasters_valid (nodata : ℚ) (vals : List ℚ) : Bool :=
  vals.any (fun v => !(isclose v nodata))

/-- Embedding of `sum_rasters_op(nodata, *array_list)` at one pixel.
Source (`optimal_land_area.py:163-172`): the result starts at 0, each
input adds its value where it is valid (not `isclose` to `nodata`), and
pixels where no input was valid are overwritten with `nodata`. -/
def sum_rasters_op (nodata : ℚ) (vals : List ℚ) : ℚ :=
  if sum_rasters_valid nodata vals
  then ((vals.filter (fun v => !(isclose v nodata))).sum)
  else nodata

/-!
The neighborhood hat kernel, `make_neighborhood_hat_kernel`
(`optimal_land_area.py:66-99`).  The kernel array is
`numpy.uint8`-valued.  `kernel_array` is first built as the indicator of
the disc of radius `kernel_size//2` around the center cell
(`sqrt((i - k//2)^2 + (j - k//2)^2) <= k//2`, embedded as the
equivalent integer comparison on squared distances — `sqrt` of a small
integer is correctly rounded in float64, so the comparisons agree).
Then the statement

  `kernel_array[kernel_array//2, kernel_array//2] = 3.14159 * (kernel_size//2+1)**2`

indexes with `kernel_array//2`, which is an all-zeros index array
(every entry of `kernel_array` is 0 or 1), so the assignment writes the
scalar into cell `(0, 0)` — the corner — and the scalar is cast into
the `uint8` array, i.e. truncated toward zero and wrapped modulo 256.
-/

/-- Disc indicator built on `optimal_land_area.py:88-92`: 1 on cells at
Euclidean distance at most `k//2` from the center cell `(k//2, k//2)`,
0 elsewhere. -/
def hatKernelBase (k i j : Nat) : ℤ :=
  if ((i : ℤ) - ((k / 2 : ℕ) : ℤ)) ^ 2 + ((j : ℤ) - ((k / 2 : ℕ) : ℤ)) ^ 2
      ≤ ((k / 2 : ℕ) : ℤ) ^ 2
  then 1 else 0

/-- The value assigned on `optimal_land_area.py:95-96`:
`3.14159 * (kernel_size//2 + 1)**2` cast into a `uint8` cell.  Since
`3.14159 = 314159/100000` exactly and the product is positive, the
truncation toward zero is the integer quotient
`314159 * (k/2 + 1)^2 / 100000`, wrapped modulo 256 by the cast. -/
def centerOverwriteVal (k : Nat) : ℤ :=
  ((314159 * (k / 2 + 1) ^ 2 / 100000 % 256 : ℕ) : ℤ)

/-- One cell of the kernel `make_neighborhood_hat_kernel` actually
writes: the disc indicator, with cell `(0, 0)` overwritten by the
truncated "circle area" value (the index expression
`kernel_array[kernel_array//2, kernel_array//2]` selects cell `(0,0)`,
not the center). -/
def hatKernelEntry (k i j : Nat) : ℤ :=
  if i = 0 ∧ j = 0 then centerOverwriteVal k else hatKernelBase k i j

/-- The kernel cell the convolution applies to the pixel itself: the
center cell `(k//2, k//2)`. -/
def kernelCenterWeight (k : Nat) : ℤ := hatKernelEntry k (k / 2) (k / 2)

/-- Sum of all cells of the kernel of side `k`. -/
def kernelTotal (k : Nat) : ℤ :=
  ((List.range k).map (fun i =>
    ((List.range k).map (fun j => hatKernelEntry k i j)).sum)).sum

/-- Sum of all non-center cells ("ring weights") of the kernel. -/
def kernelRingSum (k : Nat) : ℤ := kernelTotal k - kernelCenterWeight k

/-- The kernel cell `make_neighborhood_hat_kernel`'s own comment says it
sets (`# make the center the sum of the area of the circle so it's
always on`), i.e. what the spec claims for the center cell of the
radius-`r` kernel: `3.14159 * (r+1)^2` exactly, not truncated.  Stated
from the spec for comparison with `hatKernelEntry`. -/
def specCenterValue (r : Nat) : ℚ := (314159 / 100000 : ℚ) * ((r : ℚ) + 1) ^ 2

/-- Convolved value at pixel `(x, y)` of an integer-valued mask with the
kernel of side `k` (true convolution, kernel flipped; embedding of
`pygeoprocessing.convolve_2d` on nodata-free input). -/
def convolveAt (k : Nat) (mask : ℤ → ℤ → ℤ) (x y : ℤ) : ℤ :=
  ((List.range k).map (fun i =>
    ((List.range k).map (fun j =>
      hatKernelEntry k i j *
        mask (x + (((k / 2 : ℕ) : ℤ) - i)) (y + (((k / 2 : ℕ) : ℤ) - j)))).sum)).sum

/-- A standalone "on" pixel at the origin: mask is 1 there, 0 at every
other pixel. -/
def standaloneMask (a b : ℤ) : ℤ := if a = 0 ∧ b = 0 then 1 else 0

/-- `TARGET_NODATA` (`optimal_land_area.py:41`). -/
def TARGET_NODATA : ℚ := -1

/-- `byte_nodata` of `smooth_mask` (`optimal_land_area.py:121`). -/
def byte_nodata : ℚ := 255

/-- The threshold `smooth_mask` applies to the convolved raster
(`optimal_land_area.py:129-130`):
`0.01 * 3.14159 * (smooth_radius + 1)**2`. -/
def smoothThresholdVal (r : Nat) : ℚ :=
  (1 / 100 : ℚ) * (314159 / 100000 : ℚ) * ((r : ℚ) + 1) ^ 2

/-- The value `smooth_mask` produces at a pixel whose convolved coverage
is `c`: `threshold_op` with threshold `smoothThresholdVal r`, base
nodata `TARGET_NODATA` and target nodata `byte_nodata`
(`optimal_land_area.py:131-134`). -/
def smoothMaskPixel (r : Nat) (c : ℚ) : ℚ :=
  threshold_op c (smoothThresholdVal r) TARGET_NODATA byte_nodata

/-!
The per-region scheduling loop of `main`
(`optimal_land_area.py:296-386`).  `main` enumerates the global
vector's features into `fid_order_list = [(fid, field_val, area), ...]`,
sorts it by area (`sorted(..., key=lambda x: x[-1])` — Python's sort is
stable; `List.insertionSort` below is the stable sort with the same
order, hence produces the same list), then iterates: a region whose
field value is in `ISO_CODES_TO_SKIP` is skipped with `continue` before
any work; otherwise an extraction task and an alignment task are
registered, and an optimization job is submitted to the worker pool
unless the region's `results_<label>.csv` already exists.
-/

/-- One enumerated region: feature id, field value (label), geometry
area, and whether `results_<field_val>.csv` already exists on disk at
the time the loop reaches it. -/
structure Region where
  fid : Nat
  field_val : String
  area : ℚ
  csv_exists : Bool
deriving DecidableEq

/-- `ISO_CODES_TO_SKIP` (`optimal_land_area.py:39`). -/
def ISO_CODES_TO_SKIP : List String := ["ATA"]

/-- The sort order of `fid_order_list`: ascending geometry area
(`key=lambda x: x[-1]`). -/
def regionLE (a b : Region) : Prop := a.area ≤ b.area

instance : DecidableRel regionLE := fun a b => inferInstanceAs (Decidable (a.area ≤ b.area))

instance : IsTotal Region regionLE := ⟨fun a b => le_total a.area b.area⟩

instance : IsTrans Region regionLE := ⟨fun _ _ _ h h' => le_trans h h'⟩

/-- `fid_order_list = sorted(fid_order_list, key=lambda x: x[-1])`
(`optimal_land_area.py:311`), embedded as the stable insertion sort by
area. -/
def sortRegions (rs : List Region) : List Region := List.insertionSort regionLE rs

/-- What one pass of `main`'s region loop accumulates: extraction tasks,
alignment tasks, and submitted optimization jobs, each recorded as the
region it was created for, in submission order. -/
structure Schedule where
  extract_tasks : List Region
  align_tasks : List Region
  jobs : List Region
deriving DecidableEq

/-- One iteration of the region loop (`optimal_land_area.py:320-386`):
`continue` on a skip-listed field value; otherwise add the extract task
and the align task, and submit the optimization job unless the
region's results csv exists. -/
def scheduleStep (sch : Schedule) (r : Region) : Schedule :=
  if ISO_CODES_TO_SKIP.contains r.field_val then sch
  else
    { extract_tasks := sch.extract_tasks ++ [r]
      align_tasks := sch.align_tasks ++ [r]
      jobs := if r.csv_exists then sch.jobs else sch.jobs ++ [r] }

/-- The whole loop: sort the enumerated regions by area, then fold the
loop body over them starting from an empty schedule. -/
def runSchedule (rs : List Region) : Schedule :=
  (sortRegions rs).foldl scheduleStep ⟨[], [], []⟩

/-- The loop condition under which a region gets any work at all: its
field value is not in `ISO_CODES_TO_SKIP` (`optimal_land_area.py:321`,
negated). -/
def regionProcessed (r : Region) : Bool := !(ISO_CODES_TO_SKIP.contains r.field_val)

/-- The loop condition under which a region's optimization job is
submitted: it is processed and its results csv does not exist
(`optimal_land_area.py:321` and `377`). -/
def regionJobbed (r : Region) : Bool := regionProcessed r && !r.csv_exists

/-- The spec's region-ordering scenario: regions with areas
`[50, 10, 30]`, plus one skip-listed region (`ATA`, smallest area) to
exercise the skip-list. -/
def demo_region_list : List Region :=
  [⟨1, "USA", 50, false⟩, ⟨2, "ATA", 5, false⟩,
   ⟨3, "FRA", 10, false⟩, ⟨4, "BRA", 30, false⟩]

/-!
`extract_feature` (`optimal_land_area.py:209-247`).  The function opens
the base vector, applies the attribute filter
`"{base_fieldname}='{base_fieldname_value}'"`, takes
`next(iter(layer))` — which raises `StopIteration` when no feature
matches, there is no `NotFoundError` anywhere in the source — clones
the first match's geometry, and writes a new single-feature vector.
The base vector is only read, never written.  A feature is embedded as
its attribute table plus a geometry identifier; the written feature
has a fresh definition with no attributes set, only the cloned
geometry.
-/

/-- Python exceptions this embedding distinguishes. -/
inductive PyExc where
  | stopIteration
  | notFoundError
  | calledProcessError
  | typeError (msg : String)
deriving DecidableEq

/-- One vector feature: id, attribute table, geometry identity. -/
structure Feature where
  fid : Nat
  attrs : List (String × String)
  geom : Nat
deriving DecidableEq

/-- `layer.SetAttributeFilter(f"{fieldname}='{value}'")` followed by
iteration: the features whose `fieldname` attribute equals `value`, in
layer order. -/
def attributeFiltered (layer : List Feature) (fieldname value : String) : List Feature :=
  layer.filter (fun f => f.attrs.lookup fieldname == some value)

/-- Embedding of `extract_feature(base_vector_path, base_fieldname,
base_fieldname_value, target_vector_path)`: on success, returns the
feature list written to the target vector together with the (unchanged)
source layer; with no matching feature, `next(iter(layer))` raises
`StopIteration`. -/
def extract_feature (layer : List Feature) (fieldname value : String) :
    Except PyExc (List Feature × List Feature) :=
  match attributeFiltered layer fieldname value with
  | [] => Except.error PyExc.stopIteration
  | f :: _ => Except.ok ([{ fid := 0, attrs := [], geom := f.geom }], layer)

/-!
`copy_gs` (`optimal_land_area.py:175-190`) and how `main` consumes its
token (`optimal_land_area.py:266-272`).  `copy_gs` makes the target
directory, runs `gsutil cp -r` through `subprocess.run(..., check=True)`
— which raises `CalledProcessError` when the copy exits nonzero — and
only after that statement returns does it open and write the token
file.  The embedding records the effects in order.
-/

/-- Effects `copy_gs` can perform, in program order. -/
inductive CopyEvent where
  | makeDirs
  | runGsutil (ok : Bool)
  | writeToken
deriving DecidableEq

/-- Embedding of `copy_gs(gs_uri, target_dir, token_file_path)`,
parameterized by whether the `gsutil` subprocess succeeds: the trace of
effects performed, and the exception raised (if any). -/
def copy_gs (subprocess_ok : Bool) : List CopyEvent × Option PyExc :=
  if subprocess_ok then
    ([CopyEvent.makeDirs, CopyEvent.runGsutil true, CopyEvent.writeToken], none)
  else
    ([CopyEvent.makeDirs, CopyEvent.runGsutil false], some PyExc.calledProcessError)

/-- Whether a run of `copy_gs` created the token file. -/
def tokenWritten (subprocess_ok : Bool) : Bool :=
  (copy_gs subprocess_ok).1.contains CopyEvent.writeToken

/-- Modelled from the spec: the TaskGraph dependency scheduler is an
imported library (`import taskgraph`), not part of this source file;
per the spec's TaskGraph contract, a task whose declared target paths
all exist is considered satisfied, so `main`'s fetch task (whose sole
declared target is the token file, `optimal_land_area.py:268-272`) is
treated as complete exactly when the token file exists. -/
def fetchTreatedComplete (token_exists : Bool) : Bool := token_exists

/-!
`optimization_error_handler` (`optimal_land_area.py:396-401`).  The
statement `error_string = 'exception occurred: %e', str(e)` binds a
2-tuple (the comma makes a tuple; there is no `%` formatting), and
`error_file.write(error_string + '\n')` then adds a tuple to a string,
which raises `TypeError` — so the handler itself raises and appends
nothing to `error.txt`.  Python value concatenation is embedded below.
-/

/-- The Python values the handler manipulates: strings and tuples. -/
inductive PyVal where
  | str (s : String)
  | tuple (elems : List PyVal)

/-- Python `+` on these values: string + string concatenates, tuple +
tuple concatenates, and mixing the two raises `TypeError`. -/
def pyAdd : PyVal → PyVal → Except PyExc PyVal
  | PyVal.str a, PyVal.str b => Except.ok (PyVal.str (a ++ b))
  | PyVal.tuple a, PyVal.tuple b => Except.ok (PyVal.tuple (a ++ b))
  | PyVal.tuple _, PyVal.str _ =>
      Except.error (PyExc.typeError "can only concatenate tuple (not str) to tuple")
  | PyVal.str _, PyVal.tuple _ =>
      Except.error (PyExc.typeError "can only concatenate str (not tuple) to str")

/-- Python `file.write` accepts only a string argument. -/
def pyFileWrite : PyVal → Except PyExc String
  | PyVal.str s => Except.ok s
  | PyVal.tuple _ => Except.error (PyExc.typeError "write() argument must be str")

/-- Embedding of `optimization_error_handler(e)` for an exception whose
`str` is `e`: the list of records appended to `error.txt`, or the
exception the handler itself raises.  `error_string` is the 2-tuple
`('exception occurred: %e', str(e))`; the handler then evaluates
`error_string + '\n'` and writes the result. -/
def optimization_error_handler (e : String) : Except PyExc (List String) :=
  let error_string : PyVal := PyVal.tuple [PyVal.str "exception occurred: %e", PyVal.str e]
  match pyAdd error_string (PyVal.str "\n") with
  | Except.error exc => Except.error exc
  | Except.ok v =>
      match pyFileWrite v with
      | Except.error exc => Except.error exc
      | Except.ok s => Except.ok [s]

/-! ### Helper evaluation lemmas -/

/-- Evaluation of `numpy.isclose(1, -1)`. -/
theorem isclose_one_neg_one : isclose 1 (-1) = false := by
  simp only [isclose, np_atol, np_rtol, decide_eq_false_iff_not]
  norm_num [abs_le]

/-- Evaluation of `numpy.isclose(1, 0)`. -/
theorem isclose_one_zero : isclose 1 0 = false := by
  simp only [isclose, np_atol, np_rtol, decide_eq_false_iff_not]
  norm_num [abs_le]

/-- Evaluation of `numpy.isclose(5, -1)`. -/
theorem isclose_five_neg_one : isclose 5 (-1) = false := by
  simp only [isclose, np_atol, np_rtol, decide_eq_false_iff_not]
  norm_num [abs_le]

/-- Evaluation of `numpy.isclose(5, 0)`. -/
theorem isclose_five_zero : isclose 5 0 = false := by
  simp only [isclose, np_atol, np_rtol, decide_eq_false_iff_not]
  norm_num [abs_le]

/-- Evaluation of `numpy.isclose(-6, -1)`. -/
theorem isclose_neg_six_neg_one : isclose (-6) (-1) = false := by
  simp only [isclose, np_atol, np_rtol, decide_eq_false_iff_not]
  norm_num [abs_le]

/-- Evaluation of `numpy.isclose(3, -1)`. -/
theorem isclose_three_neg_one : isclose 3 (-1) = false := by
  simp only [isclose, np_atol, np_rtol, decide_eq_false_iff_not]
  norm_num [abs_le]

/-- Evaluation of `numpy.isclose(1e-9, 0)`: within the absolute
tolerance `1e-8`, so it counts as zero. -/
theorem isclose_tiny_zero : isclose (1 / 1000000000) 0 = true := by
  simp only [isclose, np_atol, np_rtol, decide_eq_true_eq]
  norm_num [abs_le]

/-- Evaluation of `numpy.isclose(1e-9, -5)`. -/
theorem isclose_tiny_neg_five : isclose (1 / 1000000000) (-5) = false := by
  simp only [isclose, np_atol, np_rtol, decide_eq_false_iff_not]
  norm_num [abs_le]

/-- Summing the valid entries is the same as summing all entries with
invalid ones replaced by a 0 contribution. -/
theorem sum_valid_eq_sum_contrib (nodata : ℚ) : ∀ vals : List ℚ,
    (vals.filter (fun v => !(isclose v nodata))).sum
      = (vals.map (fun v => if isclose v nodata = true then 0 else v)).sum := by
  intro vals
  induction vals with
  | nil => rfl
  | cons a l ih => cases h : isclose a nodata <;> simp [List.filter_cons, h, ih]

/-- Unfolding of the region-loop fold: the extract tasks, align tasks
and jobs accumulated over a region list are the filters of that list by
the corresponding loop conditions, in order. -/
theorem foldl_scheduleStep_spec : ∀ (l : List Region) (sch : Schedule),
    ((l.foldl scheduleStep sch).extract_tasks
        = sch.extract_tasks ++ l.filter regionProcessed)
  ∧ ((l.foldl scheduleStep sch).align_tasks
        = sch.align_tasks ++ l.filter regionProcessed)
  ∧ ((l.foldl scheduleStep sch).jobs = sch.jobs ++ l.filter regionJobbed) := by
  intro l
  induction l with
  | nil => intro sch; simp
  | cons a l ih =>
    intro sch
    rcases ih (scheduleStep sch a) with ⟨h1, h2, h3⟩
    refine ⟨?_, ?_, ?_⟩ <;>
      simp only [List.foldl_cons, List.filter_cons, h1, h2, h3] <;>
      by_cases hs : a.field_val ∈ ISO_CODES_TO_SKIP <;>
      by_cases hc : a.csv_exists <;>
      simp [scheduleStep, regionProcessed, regionJobbed, hs, hc]

/-- The extract tasks of a run are the area-sorted regions that are not
skip-listed. -/
theorem runSchedule_extract (rs : List Region) :
    (runSchedule rs).extract_tasks = (sortRegions rs).filter regionProcessed := by
  simpa [runSchedule] using (foldl_scheduleStep_spec (sortRegions rs) ⟨[], [], []⟩).1

/-- The align tasks of a run are the area-sorted regions that are not
skip-listed. -/
theorem runSchedule_align (rs : List Region) :
    (runSchedule rs).align_tasks = (sortRegions rs).filter regionProcessed := by
  simpa [runSchedule] using (foldl_scheduleStep_spec (sortRegions rs) ⟨[], [], []⟩).2.1

/-- The submitted jobs of a run are the area-sorted regions that are
not skip-listed and have no results csv yet. -/
theorem runSchedule_jobs (rs : List Region) :
    (runSchedule rs).jobs = (sortRegions rs).filter regionJobbed := by
  simpa [runSchedule] using (foldl_scheduleStep_spec (sortRegions rs) ⟨[], [], []⟩).2.2

/-! ### Claim theorems -/

/-- Claim C1 (code bug): the spec and the source's own comment say the
center cell of the radius-`r` kernel is overwritten with
`3.14159*(r+1)^2`, but `make_neighborhood_hat_kernel` indexes the
overwrite with `kernel_array//2` (an all-zeros array) instead of
`kernel_size//2`, so for radius 1 (`kernel_size = 3`) the center cell
`(1,1)` keeps weight 1, the corner cell `(0,0)` — outside the circle,
so weight 0 per the claim — receives the value truncated to the uint8
12, and neither equals `3.14159*(1+1)^2 = 12.56636`; for radius 9
(`kernel_size = 19`) the value even wraps modulo 256 to 58. -/
theorem hat_kernel_overwrite_misses_center :
    hatKernelEntry 3 1 1 = 1
  ∧ hatKernelEntry 3 0 0 = 12
  ∧ hatKernelBase 3 0 0 = 0
  ∧ (1 : ℚ) ≠ specCenterValue 1
  ∧ (12 : ℚ) ≠ specCenterValue 1
  ∧ hatKernelEntry 19 0 0 = 58
  ∧ hatKernelEntry 19 9 9 = 1 := by
  refine ⟨by decide, by decide, by decide, ?_, ?_, by decide, by decide⟩ <;>
    · rw [specCenterValue]; norm_num

/-- Claim C2 (code bug): because the center overwrite misses (claim
C1), the kernel's center weight for radius 1 (`kernel_size = 3`) is 1
while the other cells sum to 16, so the center does not exceed the ring
sum; and for radius 5 (`kernel_size = 11`) a standalone "on" pixel
convolves to exactly the center weight 1, which is below the smoothing
threshold `0.01*3.14159*(5+1)^2 = 1.1309724`, so `smooth_mask` turns
the pixel OFF — contradicting self-inclusion. -/
theorem hat_kernel_center_not_dominant :
    kernelCenterWeight 3 = 1
  ∧ kernelRingSum 3 = 16
  ∧ ¬ (kernelRingSum 3 < kernelCenterWeight 3)
  ∧ kernelCenterWeight 11 = 1
  ∧ convolveAt 11 standaloneMask 0 0 = kernelCenterWeight 11
  ∧ smoothMaskPixel 5 ((convolveAt 11 standaloneMask 0 0 : ℤ) : ℚ) = 0 := by
  refine ⟨by decide, by decide, by decide, by decide, by decide, ?_⟩
  have hc : ((convolveAt 11 standaloneMask 0 0 : ℤ) : ℚ) = 1 := by
    rw [show convolveAt 11 standaloneMask 0 0 = 1 from by decide]
    norm_num
  rw [hc]
  simp only [smoothMaskPixel, threshold_op, TARGET_NODATA, byte_nodata,
    isclose_one_neg_one, isclose_one_zero, Bool.or_self, Bool.false_eq_true,
    if_false]
  rw [if_neg]
  rw [smoothThresholdVal]
  norm_num

/-- Claim C3 (counterexample): the claim says a pixel is excluded only
when it is the nodata sentinel or exactly 0, but `threshold_op` uses
`numpy.isclose`: the value `1e-9` with threshold 0, nodata `-5` and
target nodata `-1` is nonzero, not the sentinel, and at least the
threshold, so the claim demands output 1 — the code outputs the uint8
target-nodata fill 255 instead (also ≠ the passed `-1`). -/
theorem threshold_op_near_zero_counterexample :
    (1 / 1000000000 : ℚ) ≠ 0
  ∧ (1 / 1000000000 : ℚ) ≠ -5
  ∧ (0 : ℚ) ≤ 1 / 1000000000
  ∧ threshold_op (1 / 1000000000) 0 (-5) (-1) = 255
  ∧ (255 : ℚ) ≠ 1
  ∧ (255 : ℚ) ≠ -1 := by
  refine ⟨by norm_num, by norm_num, by norm_num, ?_, by norm_num, by norm_num⟩
  simp only [threshold_op, isclose_tiny_neg_five, isclose_tiny_zero,
    Bool.false_or, if_true]
  decide

/-- Claim C3 (amended): for every value `v`, `threshold_op(v, T,
baseNodata, targetNodata)` outputs the uint8 cast of `targetNodata`
when `v` is `numpy.isclose` to `baseNodata` or to 0, and otherwise
outputs `(v >= T)` as 0/1; hence (whenever the cast of `targetNodata`
is not itself 1) it outputs 1 iff `v >= T` and `v` is neither
approximately the sentinel nor approximately 0. -/
theorem threshold_op_isclose_semantics (v T bn tn : ℚ) :
    ((isclose v bn || isclose v 0) = true → threshold_op v T bn tn = npUint8 tn)
  ∧ ((isclose v bn || isclose v 0) = false →
      threshold_op v T bn tn = if T ≤ v then 1 else 0)
  ∧ (npUint8 tn ≠ 1 →
      (threshold_op v T bn tn = 1
        ↔ T ≤ v ∧ isclose v bn = false ∧ isclose v 0 = false)) := by
  refine ⟨fun h => by simp [threshold_op, h], fun h => by simp [threshold_op, h], ?_⟩
  intro hn
  cases hb : isclose v bn <;> cases h0 : isclose v 0 <;>
    simp [threshold_op, hb, h0, hn]

/-- Claim C3 (witness): instantiation at `v = 5`, `T = 3`,
`baseNodata = -1`, `targetNodata = 255`: the pixel is valid and at
least the threshold, so the output is 1. -/
theorem threshold_op_isclose_semantics_witness :
    npUint8 255 ≠ 1 ∧ threshold_op 5 3 (-1) 255 = 1 := by
  have h := (threshold_op_isclose_semantics 5 3 (-1) 255).2.2 (by decide)
  exact ⟨by decide, h.mpr ⟨by norm_num, isclose_five_neg_one, isclose_five_zero⟩⟩

/-- Claim C4 (counterexample): with nodata sentinel `-1` and the two
valid inputs `5` and `-6` (neither `numpy.isclose` to `-1`),
`sum_rasters_op` outputs their sum `-1`, which equals the sentinel even
though not all inputs are invalid — so "the output pixel equals the
nodata sentinel exactly where all inputs are invalid" fails as
stated. -/
theorem sum_rasters_op_sentinel_collision :
    isclose 5 (-1) = false
  ∧ isclose (-6) (-1) = false
  ∧ sum_rasters_op (-1) [5, -6] = -1 := by
  refine ⟨isclose_five_neg_one, isclose_neg_six_neg_one, ?_⟩
  simp [sum_rasters_op, sum_rasters_valid, isclose_five_neg_one,
    isclose_neg_six_neg_one]
  norm_num

/-- Claim C4 (amended): for every nonempty family of aligned inputs and
nodata sentinel, the output validity flag is set iff at least one input
is valid (not `numpy.isclose` to the sentinel); where some input is
valid the output value is the sum of all inputs with invalid inputs
contributing 0; and where all inputs are invalid the output is set to
the sentinel (a valid pixel's sum may coincide with the sentinel value,
so value-equality with the sentinel is not an exact validity test). -/
theorem sum_rasters_op_union_semantics (nodata : ℚ) (vals : List ℚ)
    (hne : vals ≠ []) :
    (sum_rasters_valid nodata vals = true ↔ ∃ v ∈ vals, isclose v nodata = false)
  ∧ (sum_rasters_valid nodata vals = true →
      sum_rasters_op nodata vals
        = (vals.map (fun v => if isclose v nodata = true then 0 else v)).sum)
  ∧ (sum_rasters_valid nodata vals = false → sum_rasters_op nodata vals = nodata) := by
  refine ⟨?_, ?_, ?_⟩
  · simp [sum_rasters_valid, List.any_eq_true]
  · intro h
    rw [sum_rasters_op, h]
    simp only [if_true]
    exact sum_valid_eq_sum_contrib nodata vals
  · intro h
    simp [sum_rasters_op, h]

/-- Claim C4 (witness): instantiation at nodata `-1` and inputs
`[3, -1]`: the second input is invalid and contributes 0, so the output
is 3. -/
theorem sum_rasters_op_union_semantics_witness :
    ([3, -1] : List ℚ) ≠ []
  ∧ sum_rasters_valid (-1) [3, -1] = true
  ∧ sum_rasters_op (-1) [3, -1]
      = (([3, -1] : List ℚ).map (fun v => if isclose v (-1) = true then 0 else v)).sum := by
  have hvalid : sum_rasters_valid (-1) [3, -1] = true := by
    simp [sum_rasters_valid, isclose_three_neg_one]
  exact ⟨by simp, hvalid,
    (sum_rasters_op_union_semantics (-1) [3, -1] (by simp)).2.1 hvalid⟩

/-- Claim C5 (code bug): `optimization_error_handler` never appends a
record — the statement `error_string = 'exception occurred: %e',
str(e)` binds a tuple, and `error_file.write(error_string + '\n')`
raises `TypeError` (tuple + str), so for every exception text the
handler itself raises and the error log receives nothing (and the
handler is passed only the exception, never the region label). -/
theorem optimization_error_handler_always_raises (e : String) :
    optimization_error_handler e
      = Except.error (PyExc.typeError "can only concatenate tuple (not str) to tuple") :=
  rfl

/-- Claim C6: a region that is processed (not skip-listed) has an
optimization job submitted iff its `results_<label>.csv` does not
already exist; when the file exists the job is never added to the
schedule. -/
theorem job_submitted_iff_results_missing (rs : List Region) (r : Region)
    (hmem : r ∈ rs)
    (hskip : ISO_CODES_TO_SKIP.contains r.field_val = false) :
    r ∈ (runSchedule rs).jobs ↔ r.csv_exists = false := by
  rw [runSchedule_jobs, List.mem_filter]
  have hsort : r ∈ sortRegions rs ↔ r ∈ rs :=
    (List.perm_insertionSort regionLE rs).mem_iff
  have hskip' : r.field_val ∉ ISO_CODES_TO_SKIP := by simpa using hskip
  constructor
  · rintro ⟨-, hp⟩
    exact (by simpa [regionJobbed, regionProcessed, hskip'] using hp : r.csv_exists = false)
  · intro hcsv
    exact ⟨hsort.mpr hmem, by simp [regionJobbed, regionProcessed, hskip', hcsv]⟩

/-- Claim C6 (witness): a single non-skipped region without a results
csv is submitted. -/
theorem job_submitted_iff_results_missing_witness :
    (⟨0, "FRA", 10, false⟩ : Region) ∈ [(⟨0, "FRA", 10, false⟩ : Region)]
  ∧ ISO_CODES_TO_SKIP.contains "FRA" = false
  ∧ ((⟨0, "FRA", 10, false⟩ : Region) ∈ (runSchedule [⟨0, "FRA", 10, false⟩]).jobs
      ↔ (⟨0, "FRA", 10, false⟩ : Region).csv_exists = false) :=
  ⟨by decide, by decide,
   job_submitted_iff_results_missing [⟨0, "FRA", 10, false⟩] ⟨0, "FRA", 10, false⟩
     (by decide) (by decide)⟩

/-- Claim C7: the loop walks the regions in ascending geometry-area
order, so jobs are submitted in ascending area order; a skip-listed
region generates no extraction task, no alignment task and no job,
while every non-skipped region gets its extraction and alignment
tasks. -/
theorem regions_processed_in_area_order (rs : List Region) :
    List.Sorted regionLE (sortRegions rs)
  ∧ List.Sorted regionLE ((runSchedule rs).jobs)
  ∧ (∀ r, r ∈ rs → ISO_CODES_TO_SKIP.contains r.field_val = true →
      r ∉ (runSchedule rs).extract_tasks ∧ r ∉ (runSchedule rs).align_tasks
        ∧ r ∉ (runSchedule rs).jobs)
  ∧ (∀ r, r ∈ rs → ISO_CODES_TO_SKIP.contains r.field_val = false →
      r ∈ (runSchedule rs).extract_tasks ∧ r ∈ (runSchedule rs).align_tasks) := by
  have hsorted : List.Sorted regionLE (sortRegions rs) :=
    List.sorted_insertionSort regionLE rs
  refine ⟨hsorted, ?_, ?_, ?_⟩
  · rw [runSchedule_jobs]
    exact List.Pairwise.sublist (List.filter_sublist _) hsorted
  · intro r hr hskip
    have hskip' : r.field_val ∈ ISO_CODES_TO_SKIP := by simpa using hskip
    have hnp : regionProcessed r = false := by
      simp [regionProcessed, hskip']
    have hnj : regionJobbed r = false := by
      simp [regionJobbed, hnp]
    refine ⟨?_, ?_, ?_⟩
    · rw [runSchedule_extract]
      intro hmem
      rcases List.mem_filter.mp hmem with ⟨-, hp⟩
      rw [hnp] at hp
      exact Bool.false_ne_true hp
    · rw [runSchedule_align]
      intro hmem
      rcases List.mem_filter.mp hmem with ⟨-, hp⟩
      rw [hnp] at hp
      exact Bool.false_ne_true hp
    · rw [runSchedule_jobs]
      intro hmem
      rcases List.mem_filter.mp hmem with ⟨-, hp⟩
      rw [hnj] at hp
      exact Bool.false_ne_true hp
  · intro r hr hskip
    have hskip' : r.field_val ∉ ISO_CODES_TO_SKIP := by simpa using hskip
    have hp : regionProcessed r = true := by
      simp [regionProcessed, hskip']
    have hmem : r ∈ sortRegions rs :=
      (List.perm_insertionSort regionLE rs).mem_iff.mpr hr
    constructor
    · rw [runSchedule_extract]
      exact List.mem_filter.mpr ⟨hmem, hp⟩
    · rw [runSchedule_align]
      exact List.mem_filter.mpr ⟨hmem, hp⟩

/-- Claim C7 (witness): on the spec's scenario (areas 50, 10, 30 plus a
skip-listed `ATA` region of area 5) the submitted jobs have areas
`[10, 30, 50]`; the `ATA` region — though smallest — appears in no task
list and no job list, and a non-skipped region appears in both task
lists. -/
theorem regions_processed_in_area_order_witness :
    ((runSchedule demo_region_list).jobs).map Region.area = [10, 30, 50]
  ∧ ((⟨2, "ATA", 5, false⟩ : Region) ∉ (runSchedule demo_region_list).extract_tasks
      ∧ (⟨2, "ATA", 5, false⟩ : Region) ∉ (runSchedule demo_region_list).align_tasks
      ∧ (⟨2, "ATA", 5, false⟩ : Region) ∉ (runSchedule demo_region_list).jobs)
  ∧ ((⟨3, "FRA", 10, false⟩ : Region) ∈ (runSchedule demo_region_list).extract_tasks
      ∧ (⟨3, "FRA", 10, false⟩ : Region) ∈ (runSchedule demo_region_list).align_tasks) :=
  ⟨by decide,
   (regions_processed_in_area_order demo_region_list).2.2.1 _ (by decide) (by decide),
   (regions_processed_in_area_order demo_region_list).2.2.2 _ (by decide) (by decide)⟩

/-- Claim C8 (counterexample): on a layer whose only feature has
`iso3 = 'FRA'`, filtering for `iso3 = 'XYZ'` matches nothing and
`extract_feature` fails with `StopIteration` (the bare
`next(iter(layer))` exhausts), which is not the `NotFoundError` the
claim names. -/
theorem extract_feature_no_match_raises_stop_iteration :
    attributeFiltered [⟨1, [("iso3", "FRA")], 7⟩] "iso3" "XYZ" = []
  ∧ extract_feature [⟨1, [("iso3", "FRA")], 7⟩] "iso3" "XYZ"
      = Except.error PyExc.stopIteration
  ∧ PyExc.stopIteration ≠ PyExc.notFoundError :=
  ⟨rfl, rfl, by decide⟩

/-- Claim C8 (amended): `extract_feature` fails with `StopIteration`
(not `NotFoundError`) whenever no feature matches the attribute filter;
when at least one matches, it writes a new single-feature vector
holding the first match's cloned geometry and leaves the source layer
unmodified. -/
theorem extract_feature_first_match_semantics
    (layer : List Feature) (fieldname value : String) :
    (attributeFiltered layer fieldname value = [] →
      extract_feature layer fieldname value = Except.error PyExc.stopIteration)
  ∧ (∀ f rest, attributeFiltered layer fieldname value = f :: rest →
      extract_feature layer fieldname value
        = Except.ok ([{ fid := 0, attrs := [], geom := f.geom }], layer)) := by
  constructor
  · intro h
    simp [extract_feature, h]
  · intro f rest h
    simp [extract_feature, h]

/-- Claim C8 (witness): with two matching features, the first one's
geometry (id 7) is cloned into the single-feature target and the
source layer is returned unchanged. -/
theorem extract_feature_first_match_semantics_witness :
    attributeFiltered [⟨1, [("iso3", "FRA")], 7⟩, ⟨2, [("iso3", "FRA")], 9⟩] "iso3" "FRA"
      = [⟨1, [("iso3", "FRA")], 7⟩, ⟨2, [("iso3", "FRA")], 9⟩]
  ∧ extract_feature [⟨1, [("iso3", "FRA")], 7⟩, ⟨2, [("iso3", "FRA")], 9⟩] "iso3" "FRA"
      = Except.ok ([⟨0, [], 7⟩],
          [⟨1, [("iso3", "FRA")], 7⟩, ⟨2, [("iso3", "FRA")], 9⟩]) :=
  ⟨rfl,
   (extract_feature_first_match_semantics
      [⟨1, [("iso3", "FRA")], 7⟩, ⟨2, [("iso3", "FRA")], 9⟩] "iso3" "FRA").2
     ⟨1, [("iso3", "FRA")], 7⟩ [⟨2, [("iso3", "FRA")], 9⟩] rfl⟩

/-- Claim C9: `copy_gs` writes the completion token only after the
`gsutil` subprocess has completed successfully (`check=True` raises
`CalledProcessError` first otherwise): the token exists iff the copy
succeeded, a failed copy raises and leaves no token, the successful
trace performs the subprocess strictly before the token write, and the
pipeline (whose fetch task declares exactly the token as its target)
treats the fetch as complete exactly when the token exists. -/
theorem copy_gs_token_iff_success (b : Bool) :
    (tokenWritten b = true ↔ b = true)
  ∧ ((copy_gs b).2 = none ↔ b = true)
  ∧ (b = false → (copy_gs b).2 = some PyExc.calledProcessError)
  ∧ fetchTreatedComplete (tokenWritten b) = b
  ∧ (copy_gs true).1
      = [CopyEvent.makeDirs, CopyEvent.runGsutil true, CopyEvent.writeToken] := by
  cases b
  · exact ⟨by decide, by decide, fun h => by decide, by decide, by decide⟩
  · exact ⟨by decide, by decide, fun h => absurd h (by decide), by decide, by decide⟩

/-- Claim C9 (witness): instantiation at a failing subprocess: no token
is written and `CalledProcessError` is raised. -/
theorem copy_gs_token_iff_success_witness :
    tokenWritten false = false
  ∧ (copy_gs false).2 = some PyExc.calledProcessError :=
  ⟨by decide, (copy_gs_token_iff_success false).2.2.1 rfl⟩

/-- Claim C10: under the precondition `total_sum ≠ 0`, `proportion_op`
maps every pixel not `numpy.isclose` to `base_nodata` to
`base / total_sum` and every other pixel to `target_nodata`; and the
valid mask on which the division executes does not depend on
`total_sum` at all — the code has no guard for `total_sum = 0`, so the
division branch is reached with a zero divisor on every valid pixel. -/
theorem proportion_op_nonzero_total (v ts bn tn : ℚ) (hts : ts ≠ 0) :
    (isclose v bn = false → proportion_op v ts bn tn = v / ts)
  ∧ (isclose v bn = true → proportion_op v ts bn tn = tn)
  ∧ proportion_division_reached v 0 bn = proportion_division_reached v ts bn := by
  exact ⟨fun h => by simp [proportion_op, h], fun h => by simp [proportion_op, h], rfl⟩

/-- Claim C10 (witness): instantiation at `base = 3`, `total_sum = 2`,
`base_nodata = -1`, `target_nodata = 255`. -/
theorem proportion_op_nonzero_total_witness :
    (2 : ℚ) ≠ 0
  ∧ ((isclose 3 (-1) = false → proportion_op 3 2 (-1) 255 = 3 / 2)
    ∧ (isclose 3 (-1) = true → proportion_op 3 2 (-1) 255 = 255)
    ∧ proportion_division_reached 3 0 (-1) = proportion_division_reached 3 2 (-1)) :=
  ⟨by norm_num, proportion_op_nonzero_total 3 2 (-1) 255 (by norm_num)⟩
